import Mathlib

/-!
Shallow embedding of the flask-secure-mvc task-management API
(src/controllers/auth_controller.py, src/controllers/task_controller.py,
src/middleware/auth_middleware.py) together with a model of the missing
MongoEngine document classes (models/user.py, models/task.py, imported by
src/models/__init__.py but not present in src/), reconstructed from the
specification's data-model section.

Conventions of the embedding:
- machine timestamps (datetime.utcnow) are abstract ticks, modelled as Nat;
- MongoDB ObjectIds are modelled as Nat drawn from a store counter;
- JSON response bodies are association lists of string keys to values;
- Python exceptions raised inside a controller's try-block are modelled with
  Except; the outer except-branch of each controller maps the exception to
  the 500 response the source builds from it.
-/

namespace FlaskApp

/-- JWT payload built by generate_token (auth_controller.py lines 198-209):
subject user id, username, email, role, expiry and issued-at instants. -/
structure TokenPayload where
  user_id : Nat
  username : String
  email : String
  role : String
  exp : Nat
  iat : Nat
deriving DecidableEq, Repr

/-- A serialized JWT: its payload together with its signature.  The HMAC-SHA256
signature produced by jwt.encode is abstracted as an injective tag computed
from the secret and the payload (one-wayness is irrelevant to the claims;
only the fact that a matching tag requires the same secret and payload is
used). -/
structure Token where
  payload : TokenPayload
  sig : String
deriving DecidableEq, Repr

/-- Abstraction of the HMAC signature over the payload under a secret. -/
def jwtSignature (secret : String) (p : TokenPayload) : String :=
  secret ++ "#" ++ toString p.user_id ++ "#" ++ p.username ++ "#" ++ p.email
    ++ "#" ++ p.role ++ "#" ++ toString p.exp ++ "#" ++ toString p.iat

/-- Leaf JSON value appearing in a response body: a string, an integer,
JSON null, or a serialized JWT. -/
inductive Leaf where
  | str (s : String)
  | num (n : Int)
  | null
  | jwt (t : Token)
deriving DecidableEq, Repr

/-- A JSON object whose values are all leaves (user objects, task objects,
pagination blocks). -/
abbrev Flat := List (String × Leaf)

/-- Value of a top-level response-body key: a leaf, a flat object, or an
array of flat objects (the task lists). -/
inductive Field where
  | leaf (l : Leaf)
  | obj (o : Flat)
  | arr (xs : List Flat)
deriving DecidableEq, Repr

/-- A JSON response body, as built by jsonify over a Python dict. -/
abbrev Body := List (String × Field)

/-- A Set-Cookie instruction attached to a response by response.set_cookie. -/
structure CookieSet where
  name : String
  value : Leaf
  maxAge : Nat
deriving DecidableEq, Repr

/-- An HTTP response: status code, JSON body, cookie instructions. -/
structure Response where
  status : Nat
  body : Body
  setCookies : List CookieSet
deriving DecidableEq, Repr

/-- Response carrying only an error message, as in jsonify with a single
error key. -/
def mkErr (code : Nat) (msg : String) : Response :=
  { status := code, body := [("error", .leaf (.str msg))], setCookies := [] }

/-- Python exceptions that the modelled store and library calls can raise
inside a controller try-block. -/
inductive PyExc where
  | validationError (m : String)
  | notUnique (m : String)
  | valueError (m : String)
  | zeroDivisionError
deriving DecidableEq, Repr

/-- The str(e) text of a modelled Python exception. -/
def PyExc.msg : PyExc → String
  | .validationError m => m
  | .notUnique m => m
  | .valueError m => m
  | .zeroDivisionError => "integer division or modulo by zero"

/-- Python str.strip() with no argument: remove leading and trailing
whitespace. -/
def py_strip (s : String) : String :=
  ⟨((s.data.dropWhile Char.isWhitespace).reverse.dropWhile Char.isWhitespace).reverse⟩

/-- Python str.lower(): lowercase every character. -/
def py_lower (s : String) : String := ⟨s.data.map Char.toLower⟩

/-- Accumulator pass of decimal-numeral parsing. -/
def digitsVal : List Char → Nat → Nat
  | [], acc => acc
  | c :: cs, acc => digitsVal cs (acc * 10 + (c.toNat - 48))

/-- Value of a non-empty all-digit string, none otherwise. -/
def decimalNat? (s : String) : Option Nat :=
  if s.data ≠ [] ∧ s.data.all Char.isDigit then some (digitsVal s.data 0) else none

/-- Modelled from the spec: the User document of models/user.py (absent from
src/): unique id, unique username, unique email, display name, password
hash, role drawn from the closed enum, active flag, timestamps. -/
structure UserRec where
  id : Nat
  username : String
  email : String
  name : String
  password_hash : String
  role : String
  is_active : Bool
  created_at : Nat
  updated_at : Nat
deriving DecidableEq, Repr

/-- Modelled from the spec: the Task document of models/task.py (absent from
src/): id, title, description, owning user reference, status and priority
from closed enums, optional due date, completed_at set on transition into
completed (hence initially unset), timestamps. -/
structure TaskRec where
  id : Nat
  title : String
  description : String
  user : Nat
  status : String
  priority : String
  due_date : Option Nat
  completed_at : Option Nat
  created_at : Nat
  updated_at : Nat
deriving DecidableEq, Repr

/-- The persistent store: user and task collections plus the id counter that
stands in for ObjectId generation. -/
structure Store where
  users : List UserRec
  tasks : List TaskRec
  nextId : Nat
deriving DecidableEq, Repr

/-- Closed role enum of the User document (spec data model). -/
def roleChoices : List String := ["user", "admin"]

/-- Closed status enum of the Task document, also inlined by update_task
(task_controller.py line 175). -/
def statusChoices : List String := ["pending", "in_progress", "completed", "cancelled"]

/-- Closed priority enum of the Task document, also inlined by update_task
(task_controller.py line 183). -/
def priorityChoices : List String := ["low", "medium", "high", "urgent"]

/-- Modelled from the spec: User.set_password hashes with a one-way salted
algorithm (models/user.py, absent from src/).  The hash is abstracted as an
injective tagging; one-wayness plays no role in the claims. -/
def hash_password (p : String) : String := "pbkdf2$" ++ p

/-- Modelled from the spec: User.check_password verifies a candidate password
against the stored hash (models/user.py, absent from src/). -/
def check_password (u : UserRec) (p : String) : Bool :=
  u.password_hash == hash_password p

/-- Modelled from the spec: User.save() of the missing models/user.py.
MongoEngine validates the role against its closed choices, then the store
enforces the unique constraints on email and username; an existing document
(same id) is replaced, a new one is appended. -/
def User_save (st : Store) (u : UserRec) : Except PyExc Store :=
  if !(roleChoices.contains u.role) then
    .error (.validationError "ValidationError (User) (Value must be one of the permitted values: role)")
  else if st.users.any (fun v => v.email == u.email && v.id != u.id) then
    .error (.notUnique "Tried to save duplicate unique keys (index: email)")
  else if st.users.any (fun v => v.username == u.username && v.id != u.id) then
    .error (.notUnique "Tried to save duplicate unique keys (index: username)")
  else if st.users.any (fun v => v.id == u.id) then
    .ok { st with users := st.users.map (fun v => if v.id == u.id then u else v) }
  else
    .ok { st with users := st.users ++ [u], nextId := st.nextId + 1 }

/-- Modelled from the spec: Task.save() of the missing models/task.py.
MongoEngine validates status and priority against their closed choices; an
existing document (same id) is replaced, a new one is appended. -/
def Task_save (st : Store) (t : TaskRec) : Except PyExc Store :=
  if !(statusChoices.contains t.status) then
    .error (.validationError "ValidationError (Task) (Value must be one of the permitted values: status)")
  else if !(priorityChoices.contains t.priority) then
    .error (.validationError "ValidationError (Task) (Value must be one of the permitted values: priority)")
  else if st.tasks.any (fun x => x.id == t.id) then
    .ok { st with tasks := st.tasks.map (fun x => if x.id == t.id then t else x) }
  else
    .ok { st with tasks := st.tasks ++ [t], nextId := st.nextId + 1 }

/-- Python truthiness of data.get(key) for a string-valued field: false when
the key is absent (or null) or the string is empty. -/
def truthy : Option String → Bool
  | none => false
  | some s => s ≠ ""

/-- Config.JWT_ACCESS_TOKEN_EXPIRES (config.py line 24, default 3600). -/
def JWT_ACCESS_TOKEN_EXPIRES : Nat := 3600

/-- generate_token (auth_controller.py lines 198-209): payload with subject
id, username, email, role, exp = now + TTL, iat = now, signed with the
server secret. -/
def generate_token (secret : String) (now : Nat) (user : UserRec) : Token :=
  let payload : TokenPayload :=
    { user_id := user.id
      username := user.username
      email := user.email
      role := user.role
      exp := now + JWT_ACCESS_TOKEN_EXPIRES
      iat := now }
  { payload := payload, sig := jwtSignature secret payload }

/-- Errors raised by jwt.decode that verify_token catches. -/
inductive JwtError where
  | expiredSignature
  | invalidToken
deriving DecidableEq, Repr

/-- jwt.decode of the PyJWT library: the signature is verified first, then
the exp claim is compared with the current time. -/
def jwt_decode (secret : String) (now : Nat) (t : Token) : Except JwtError TokenPayload :=
  if t.sig != jwtSignature secret t.payload then .error .invalidToken
  else if t.payload.exp ≤ now then .error .expiredSignature
  else .ok t.payload

/-- verify_token (auth_controller.py lines 211-225): decode the token, look
up the subject user, require the active flag, otherwise None. -/
def verify_token (secret : String) (st : Store) (now : Nat) (t : Token) : Option UserRec :=
  match jwt_decode secret now t with
  | .error _ => none
  | .ok payload =>
    match st.users.find? (fun u => u.id == payload.user_id) with
    | none => none
    | some user => if !user.is_active then none else some user

/-- Request body of POST /auth/register; each field is the string found under
the corresponding key, none when the key is absent or null. -/
structure RegisterReq where
  username : Option String
  email : Option String
  password : Option String
  name : Option String
  role : Option String
deriving DecidableEq, Repr

/-- JSON object describing a user in register and login responses
(auth_controller.py lines 45-51 and 98-104). -/
def userJson (u : UserRec) : Flat :=
  [ ("id", .str (toString u.id))
  , ("username", .str u.username)
  , ("email", .str u.email)
  , ("name", .str u.name)
  , ("role", .str u.role) ]

/-- Successful register/login response: message, user object, token in the
body, plus the auth_token cookie with max_age equal to the token TTL. -/
def mkAuthSuccess (code : Nat) (msg : String) (u : UserRec) (tok : Token) : Response :=
  { status := code
    body := [ ("message", .leaf (.str msg))
            , ("user", .obj (userJson u))
            , ("token", .leaf (.jwt tok)) ]
    setCookies := [ { name := "auth_token", value := .jwt tok
                      maxAge := JWT_ACCESS_TOKEN_EXPIRES } ] }

/-- Try-block of register (auth_controller.py lines 13-65): required-field
checks, duplicate pre-checks on the raw email and username, construction of
the user with trimmed username/name and lowercased-trimmed email, save,
token issuance, 201 response. -/
def registerTry (secret : String) (st : Store) (now : Nat) (req : RegisterReq) :
    Except PyExc (Response × Store) := do
  if !truthy req.username then
    return (mkErr 400 "username is required", st)
  if !truthy req.email then
    return (mkErr 400 "email is required", st)
  if !truthy req.password then
    return (mkErr 400 "password is required", st)
  if !truthy req.name then
    return (mkErr 400 "name is required", st)
  if st.users.any (fun u => u.email == req.email.getD "") then
    return (mkErr 400 "Email already registered", st)
  if st.users.any (fun u => u.username == req.username.getD "") then
    return (mkErr 400 "Username already taken", st)
  let user : UserRec :=
    { id := st.nextId
      username := py_strip (req.username.getD "")
      email := py_strip (py_lower (req.email.getD ""))
      name := py_strip (req.name.getD "")
      password_hash := hash_password (req.password.getD "")
      role := req.role.getD "user"
      is_active := true
      created_at := now
      updated_at := now }
  let st2 ← User_save st user
  let token := generate_token secret now user
  return (mkAuthSuccess 201 "User registered successfully" user token, st2)

/-- register (auth_controller.py lines 11-68): the try-block wrapped by the
except-branch that returns the 500 response built from str(e). -/
def register (secret : String) (st : Store) (now : Nat) (req : RegisterReq) :
    Response × Store :=
  match registerTry secret st now req with
  | .ok r => r
  | .error e =>
    ({ status := 500
       body := [ ("error", .leaf (.str "Registration failed"))
               , ("details", .leaf (.str e.msg)) ]
       setCookies := [] }, st)

/-- Request body of POST /auth/login. -/
structure LoginReq where
  login : Option String
  password : Option String
deriving DecidableEq, Repr

/-- User lookup of login (auth_controller.py lines 79-83): first by email
against the lowercased trimmed login field, then by username against the
trimmed login field. -/
def findLoginUser (st : Store) (login_field : String) : Option UserRec :=
  match st.users.find? (fun u => u.email == py_lower login_field) with
  | some u => some u
  | none => st.users.find? (fun u => u.username == login_field)

/-- login (auth_controller.py lines 70-121).  Nothing in its try-block can
raise in the model, so the except-branch is dead and the function returns
the response directly; the store is never written. -/
def login (secret : String) (st : Store) (now : Nat) (req : LoginReq) :
    Response × Store :=
  if !truthy req.login || !truthy req.password then
    (mkErr 400 "Login and password are required", st)
  else
    let login_field := py_strip (req.login.getD "")
    match findLoginUser st login_field with
    | none => (mkErr 401 "Invalid credentials", st)
    | some user =>
      if !check_password user (req.password.getD "") then
        (mkErr 401 "Invalid credentials", st)
      else if !user.is_active then
        (mkErr 401 "Account is deactivated", st)
      else
        (mkAuthSuccess 200 "Login successful" user (generate_token secret now user), st)

/-- logout (auth_controller.py lines 123-141): builds a 200 response that
clears the auth_token cookie; the function body performs no store read or
write, so the store is threaded through unchanged. -/
def logout (st : Store) : Response × Store :=
  ({ status := 200
     body := [("message", .leaf (.str "Logout successful"))]
     setCookies := [ { name := "auth_token", value := .str "", maxAge := 0 } ] }, st)

/-- Modelled serialization of datetime.isoformat: timestamps are abstract
ticks, rendered by their decimal numeral. -/
def isoformat (n : Nat) : String := toString n

/-- Optional timestamp rendered as in the task JSON objects: isoformat when
set, JSON null otherwise. -/
def optIso : Option Nat → Leaf
  | some d => .str (isoformat d)
  | none => .null

/-- Modelled parser for datetime.fromisoformat over the replace of Z by an
offset (task_controller.py line 34): an abstract tick parses from its
decimal numeral, anything else raises ValueError. -/
def parse_iso (s : String) : Option Nat := decimalNat? s

/-- Request body of POST /tasks. -/
structure CreateTaskReq where
  title : Option String
  description : Option String
  status : Option String
  priority : Option String
  due_date : Option String
deriving DecidableEq, Repr

/-- Task JSON object of the create_task 201 response
(task_controller.py lines 51-59). -/
def taskJsonCreate (t : TaskRec) : Flat :=
  [ ("id", .str (toString t.id))
  , ("title", .str t.title)
  , ("description", .str t.description)
  , ("status", .str t.status)
  , ("priority", .str t.priority)
  , ("due_date", optIso t.due_date)
  , ("created_at", .str (isoformat t.created_at)) ]

/-- Try-block of create_task (task_controller.py lines 12-60): auth-context
check, required fields, length bounds, due-date parse, construction of the
task with trimmed title/description and defaulted status/priority, save. -/
def createTaskTry (st : Store) (now : Nat) (user : Option UserRec) (req : CreateTaskReq) :
    Except PyExc (Response × Store) := do
  match user with
  | none => return (mkErr 401 "User not authenticated", st)
  | some u =>
    if !truthy req.title || !truthy req.description then
      return (mkErr 400 "Title and description are required", st)
    if (req.title.getD "").length > 200 then
      return (mkErr 400 "Title must be less than 200 characters", st)
    if (req.description.getD "").length > 1000 then
      return (mkErr 400 "Description must be less than 1000 characters", st)
    let mut due_date : Option Nat := none
    if truthy req.due_date then
      match parse_iso (req.due_date.getD "") with
      | some d => due_date := some d
      | none => return (mkErr 400 "Invalid due_date format. Use ISO format", st)
    let task : TaskRec :=
      { id := st.nextId
        title := py_strip (req.title.getD "")
        description := py_strip (req.description.getD "")
        user := u.id
        status := req.status.getD "pending"
        priority := req.priority.getD "medium"
        due_date := due_date
        completed_at := none
        created_at := now
        updated_at := now }
    let st2 ← Task_save st task
    return ({ status := 201
              body := [ ("message", .leaf (.str "Task created successfully"))
                      , ("task", .obj (taskJsonCreate task)) ]
              setCookies := [] }, st2)

/-- create_task (task_controller.py lines 10-63): the try-block wrapped by
the except-branch that returns the 500 response built from str(e). -/
def create_task (st : Store) (now : Nat) (user : Option UserRec) (req : CreateTaskReq) :
    Response × Store :=
  match createTaskTry st now user req with
  | .ok r => r
  | .error e =>
    ({ status := 500
       body := [ ("error", .leaf (.str "Task creation failed"))
               , ("details", .leaf (.str e.msg)) ]
       setCookies := [] }, st)

/-- Query parameters of GET /tasks, each the raw string when present. -/
structure GetTasksArgs where
  status : Option String
  priority : Option String
  page : Option String
  limit : Option String
deriving DecidableEq, Repr

/-- Python int() over a query-parameter string: parses an optionally signed
decimal numeral, raising ValueError otherwise. -/
def pyInt (s : String) : Except PyExc Int :=
  match s.data with
  | '-' :: rest =>
    match decimalNat? ⟨rest⟩ with
    | some n => .ok (-(n : Int))
    | none => .error (.valueError ("invalid literal for int() with base 10: " ++ s))
  | _ =>
    match decimalNat? s with
    | some n => .ok (n : Int)
    | none => .error (.valueError ("invalid literal for int() with base 10: " ++ s))

/-- Python floor division: raises ZeroDivisionError on a zero divisor,
otherwise floors towards negative infinity. -/
def pyFloorDiv (a b : Int) : Except PyExc Int :=
  if b == 0 then .error .zeroDivisionError else .ok (Int.fdiv a b)

/-- Insertion step of the order_by sort on descending created_at. -/
def insertByCreatedDesc (t : TaskRec) : List TaskRec → List TaskRec
  | [] => [t]
  | x :: xs =>
    if x.created_at ≤ t.created_at then t :: x :: xs
    else x :: insertByCreatedDesc t xs

/-- order_by on descending created_at (task_controller.py line 89),
modelled as an insertion sort. -/
def sortByCreatedDesc : List TaskRec → List TaskRec
  | [] => []
  | x :: xs => insertByCreatedDesc x (sortByCreatedDesc xs)

/-- Cursor limit semantics of the underlying MongoDB driver: limit 0 means
no limit; a negative limit behaves as its magnitude. -/
def applyLimit (l : Int) (xs : List TaskRec) : List TaskRec :=
  if l == 0 then xs else xs.take l.natAbs

/-- Task JSON object of the get_tasks list items
(task_controller.py lines 95-105). -/
def taskJsonList (t : TaskRec) : Flat :=
  [ ("id", .str (toString t.id))
  , ("title", .str t.title)
  , ("description", .str t.description)
  , ("status", .str t.status)
  , ("priority", .str t.priority)
  , ("due_date", optIso t.due_date)
  , ("created_at", .str (isoformat t.created_at))
  , ("updated_at", .str (isoformat t.updated_at))
  , ("completed_at", optIso t.completed_at) ]

/-- Try-block of get_tasks (task_controller.py lines 67-115): parse page and
limit, build the owner-scoped filtered query, paginate, and compute the
pagination block whose pages value divides by limit. -/
def getTasksTry (st : Store) (user : Option UserRec) (args : GetTasksArgs) :
    Except PyExc (Response × Store) := do
  match user with
  | none => return (mkErr 401 "User not authenticated", st)
  | some u =>
    let page ← pyInt (args.page.getD "1")
    let limit ← pyInt (args.limit.getD "10")
    let skip := (page - 1) * limit
    let query := st.tasks.filter (fun t => t.user == u.id)
    let query := if truthy args.status then
        query.filter (fun t => t.status == args.status.getD "")
      else query
    let query := if truthy args.priority then
        query.filter (fun t => t.priority == args.priority.getD "")
      else query
    let tasks := applyLimit limit ((sortByCreatedDesc query).drop skip.toNat)
    let total : Int := query.length
    let task_list := tasks.map taskJsonList
    let pages ← pyFloorDiv (total + limit - 1) limit
    return ({ status := 200
              body := [ ("tasks", .arr task_list)
                      , ("pagination", .obj
                          [ ("page", .num page)
                          , ("limit", .num limit)
                          , ("total", .num total)
                          , ("pages", .num pages) ]) ]
              setCookies := [] }, st)

/-- get_tasks (task_controller.py lines 65-118): the try-block wrapped by
the except-branch that returns the 500 response built from str(e). -/
def get_tasks (st : Store) (user : Option UserRec) (args : GetTasksArgs) :
    Response × Store :=
  match getTasksTry st user args with
  | .ok r => r
  | .error e =>
    ({ status := 500
       body := [ ("error", .leaf (.str "Failed to get tasks"))
               , ("details", .leaf (.str e.msg)) ]
       setCookies := [] }, st)

/-- Owner-scoped task lookup Task.objects(id=task_id, user=user).first()
(task_controller.py lines 128, 157, 225). -/
def findOwnedTask (st : Store) (owner : Nat) (task_id : Nat) : Option TaskRec :=
  st.tasks.find? (fun t => t.id == task_id && t.user == owner)

/-- Task JSON object of the get_task 200 response
(task_controller.py lines 133-143). -/
def taskJsonGet (t : TaskRec) : Flat := taskJsonList t

/-- get_task (task_controller.py lines 120-147): owner-scoped lookup, 404
when absent or foreign-owned, otherwise the task object.  Nothing in its
try-block can raise in the model. -/
def get_task (st : Store) (user : Option UserRec) (task_id : Nat) :
    Response × Store :=
  match user with
  | none => (mkErr 401 "User not authenticated", st)
  | some u =>
    match findOwnedTask st u.id task_id with
    | none => (mkErr 404 "Task not found", st)
    | some t =>
      ({ status := 200
         body := [("task", .obj (taskJsonGet t))]
         setCookies := [] }, st)

/-- Request body of PUT /tasks/id: outer none means the key is absent; for
due_date, an inner none stands for JSON null. -/
structure UpdateTaskReq where
  title : Option String
  description : Option String
  status : Option String
  priority : Option String
  due_date : Option (Option String)
deriving DecidableEq, Repr

/-- Task JSON object of the update_task 200 response
(task_controller.py lines 202-211). -/
def taskJsonUpdate (t : TaskRec) : Flat :=
  [ ("id", .str (toString t.id))
  , ("title", .str t.title)
  , ("description", .str t.description)
  , ("status", .str t.status)
  , ("priority", .str t.priority)
  , ("due_date", optIso t.due_date)
  , ("updated_at", .str (isoformat t.updated_at))
  , ("completed_at", optIso t.completed_at) ]

/-- Try-block of update_task (task_controller.py lines 151-212): owner-scoped
lookup, then per-field updates on the in-memory document with early 400
returns, then updated_at stamping and save. -/
def updateTaskTry (st : Store) (now : Nat) (user : Option UserRec) (task_id : Nat)
    (req : UpdateTaskReq) : Except PyExc (Response × Store) := do
  match user with
  | none => return (mkErr 401 "User not authenticated", st)
  | some u =>
    match findOwnedTask st u.id task_id with
    | none => return (mkErr 404 "Task not found", st)
    | some t0 =>
      let mut task := t0
      match req.title with
      | some s =>
        if s == "" || s.length > 200 then
          return (mkErr 400 "Title is required and must be less than 200 characters", st)
        task := { task with title := py_strip s }
      | none => pure ()
      match req.description with
      | some s =>
        if s == "" || s.length > 1000 then
          return (mkErr 400 "Description is required and must be less than 1000 characters", st)
        task := { task with description := py_strip s }
      | none => pure ()
      match req.status with
      | some s =>
        if statusChoices.contains s then
          task := { task with status := s }
          if s == "completed" && task.completed_at == none then
            task := { task with completed_at := some now }
        else
          return (mkErr 400 "Invalid status", st)
      | none => pure ()
      match req.priority with
      | some s =>
        if priorityChoices.contains s then
          task := { task with priority := s }
        else
          return (mkErr 400 "Invalid priority", st)
      | none => pure ()
      match req.due_date with
      | some dv =>
        if truthy dv then
          match parse_iso (dv.getD "") with
          | some d => task := { task with due_date := some d }
          | none => return (mkErr 400 "Invalid due_date format", st)
        else
          task := { task with due_date := none }
      | none => pure ()
      task := { task with updated_at := now }
      let st2 ← Task_save st task
      return ({ status := 200
                body := [ ("message", .leaf (.str "Task updated successfully"))
                        , ("task", .obj (taskJsonUpdate task)) ]
                setCookies := [] }, st2)

/-- update_task (task_controller.py lines 149-215): the try-block wrapped by
the except-branch that returns the 500 response built from str(e). -/
def update_task (st : Store) (now : Nat) (user : Option UserRec) (task_id : Nat)
    (req : UpdateTaskReq) : Response × Store :=
  match updateTaskTry st now user task_id req with
  | .ok r => r
  | .error e =>
    ({ status := 500
       body := [ ("error", .leaf (.str "Task update failed"))
               , ("details", .leaf (.str e.msg)) ]
       setCookies := [] }, st)

/-- delete_task (task_controller.py lines 217-234): owner-scoped lookup, 404
when absent or foreign-owned, otherwise delete by primary key.  Nothing in
its try-block can raise in the model. -/
def delete_task (st : Store) (user : Option UserRec) (task_id : Nat) :
    Response × Store :=
  match user with
  | none => (mkErr 401 "User not authenticated", st)
  | some u =>
    match findOwnedTask st u.id task_id with
    | none => (mkErr 404 "Task not found", st)
    | some t =>
      ({ status := 200
         body := [("message", .leaf (.str "Task deleted successfully"))]
         setCookies := [] },
       { st with tasks := st.tasks.filter (fun x => x.id != t.id) })

/-- auth_required (auth_middleware.py lines 9-29): missing cookie token means
401 token required; a token that verify_token cannot resolve means 401
invalid or expired; otherwise the handler runs on the resolved user.  The
cookie is modelled as an optional structured token: an absent or empty
cookie is none, and any string that is not a well-signed JWT behaves as a
token whose signature check fails. -/
def auth_required (secret : String) (st : Store) (now : Nat)
    (cookie_token : Option Token) (f : UserRec → Response × Store) :
    Response × Store :=
  match cookie_token with
  | none => (mkErr 401 "Authentication token required", st)
  | some tok =>
    match verify_token secret st now tok with
    | none => (mkErr 401 "Invalid or expired token", st)
    | some user => f user

/-- admin_required (auth_middleware.py lines 31-55): as auth_required, plus
the resolved user's role must be admin, else 403. -/
def admin_required (secret : String) (st : Store) (now : Nat)
    (cookie_token : Option Token) (f : UserRec → Response × Store) :
    Response × Store :=
  match cookie_token with
  | none => (mkErr 401 "Authentication token required", st)
  | some tok =>
    match verify_token secret st now tok with
    | none => (mkErr 401 "Invalid or expired token", st)
    | some user =>
      if user.role != "admin" then (mkErr 403 "Admin access required", st)
      else f user

/-- Modelled from the spec: the implicit active-flag change that deactivates
an account (no endpoint exists in src/; the spec's User lifecycle mentions
active-flag changes happening implicitly). -/
def deactivate (st : Store) (uid : Nat) : Store :=
  { st with users := st.users.map (fun u => if u.id == uid then { u with is_active := false } else u) }

/-- Role of a stored user lies in the closed role enum. -/
def userRoleValid (u : UserRec) : Bool := roleChoices.contains u.role

/-- Status and priority of a stored task lie in their closed enums. -/
def taskEnumsValid (t : TaskRec) : Bool :=
  statusChoices.contains t.status && priorityChoices.contains t.priority

/-- Every stored user and task carries only enum values from the closed
role/status/priority enums. -/
def storeValid (st : Store) : Bool :=
  st.users.all userRoleValid && st.tasks.all taskEnumsValid

/-- One API request, as dispatched by the routes of src/routes: the auth
endpoints are public, the task endpoints run behind auth_required with the
cookie token of the request. -/
inductive Op where
  | opRegister (now : Nat) (req : RegisterReq)
  | opLogin (now : Nat) (req : LoginReq)
  | opLogout
  | opCreateTask (now : Nat) (cookie : Option Token) (req : CreateTaskReq)
  | opGetTasks (now : Nat) (cookie : Option Token) (args : GetTasksArgs)
  | opGetTask (now : Nat) (cookie : Option Token) (task_id : Nat)
  | opUpdateTask (now : Nat) (cookie : Option Token) (task_id : Nat) (req : UpdateTaskReq)
  | opDeleteTask (now : Nat) (cookie : Option Token) (task_id : Nat)

/-- Store component of the outcome of one request. -/
def applyOp (secret : String) (st : Store) : Op → Store
  | .opRegister now req => (register secret st now req).2
  | .opLogin now req => (login secret st now req).2
  | .opLogout => (logout st).2
  | .opCreateTask now ck req =>
    (auth_required secret st now ck (fun u => create_task st now (some u) req)).2
  | .opGetTasks now ck args =>
    (auth_required secret st now ck (fun u => get_tasks st (some u) args)).2
  | .opGetTask now ck tid =>
    (auth_required secret st now ck (fun u => get_task st (some u) tid)).2
  | .opUpdateTask now ck tid req =>
    (auth_required secret st now ck (fun u => update_task st now (some u) tid req)).2
  | .opDeleteTask now ck tid =>
    (auth_required secret st now ck (fun u => delete_task st (some u) tid)).2

/-- Store after a sequence of requests. -/
def applySeq (secret : String) (st : Store) : List Op → Store
  | [] => st
  | op :: ops => applySeq secret (applyOp secret st op) ops

/-- The empty store. -/
def emptyStore : Store := { users := [], tasks := [], nextId := 0 }

/-- Fixture: registration request carrying a role outside the closed enum. -/
def reqBadRole : RegisterReq :=
  { username := some "bob", email := some "bob@ex.com", password := some "pw123"
    name := some "Bob", role := some "superuser" }

/-- Fixture: an ordinary active user. -/
def userFx (uid : Nat) (uname email : String) (pw : String) (role : String)
    (active : Bool) : UserRec :=
  { id := uid, username := uname, email := email, name := uname
    password_hash := hash_password pw, role := role, is_active := active
    created_at := 0, updated_at := 0 }

/-- Fixture user for the task-creation enum counterexample. -/
def userC2 : UserRec := userFx 0 "carol" "carol@ex.com" "pw" "user" true

/-- Fixture store for the task-creation enum counterexample: one active
user. -/
def stC2 : Store := { users := [userC2], tasks := [], nextId := 1 }

/-- Fixture: task-creation request carrying a status outside the closed
enum. -/
def reqC2 : CreateTaskReq :=
  { title := some "t", description := some "d", status := some "wip"
    priority := none, due_date := none }

/-- Fixture task owned by the enum-counterexample user. -/
def taskC2 : TaskRec :=
  { id := 1, title := "todo", description := "d", user := 0
    status := "pending", priority := "medium", due_date := none
    completed_at := none, created_at := 0, updated_at := 0 }

/-- Fixture store with one user owning one task, for the update-rejection
witnesses. -/
def stC2t : Store := { users := [userC2], tasks := [taskC2], nextId := 2 }

/-- Fixture request sequence for the invariant witness: a registration
followed by an authenticated task creation. -/
def opsC2 : List Op :=
  [ .opRegister 0 { username := some "hana", email := some "hana@ex.com"
                    password := some "pw", name := some "Hana", role := none }
  , .opCreateTask 1 (some (generate_token "s" 0 (userFx 0 "hana" "hana@ex.com" "pw" "user" true)))
      { title := some "t", description := some "d", status := none
        priority := none, due_date := none } ]

/-- Fixture user for the login counterexample: deactivated, password
pw1234. -/
def userC3 : UserRec := userFx 0 "alice" "alice@ex.com" "pw1234" "user" false

/-- Fixture store for the login counterexample: one deactivated user whose
password is pw1234. -/
def stC3 : Store := { users := [userC3], tasks := [], nextId := 1 }

/-- Fixture store for the duplicate-email counterexample: one user whose
stored (normalized) email is alice@example.com. -/
def stC4 : Store := { users := [userFx 0 "alice" "alice@example.com" "pw" "user" true], tasks := [], nextId := 1 }

/-- Fixture: second registration attempt whose email differs from the stored
one only by casing. -/
def reqC4 : RegisterReq :=
  { username := some "bob", email := some "Alice@Example.com", password := some "pw2"
    name := some "Bob", role := none }

/-- Fixture user for the token-verification witness. -/
def userC5 : UserRec := userFx 3 "dana" "dana@ex.com" "pw" "user" true

/-- Fixture store for the token-verification witness. -/
def stC5 : Store := { users := [userC5], tasks := [], nextId := 4 }

/-- Fixture token issued to the token-verification witness user at time 0. -/
def tokC5 : Token := generate_token "s" 0 userC5

/-- Fixture user A for the ownership-scoping witness. -/
def annC6 : UserRec := userFx 0 "ann" "ann@ex.com" "pw" "user" true

/-- Fixture user B for the ownership-scoping witness. -/
def benC6 : UserRec := userFx 1 "ben" "ben@ex.com" "pw" "user" true

/-- Fixture task owned by user B. -/
def taskC6 : TaskRec :=
  { id := 2, title := "secret", description := "b", user := 1
    status := "pending", priority := "low", due_date := none
    completed_at := none, created_at := 0, updated_at := 0 }

/-- Fixture store for the ownership-scoping witness: users A and B, with one
task owned by B. -/
def stC6 : Store := { users := [annC6, benC6], tasks := [taskC6], nextId := 3 }

/-- Fixture user for the guard theorems: an active non-admin user. -/
def userC7 : UserRec := userFx 0 "eve" "eve@ex.com" "pw" "user" true

/-- Fixture store for the guard theorems. -/
def stC7 : Store := { users := [userC7], tasks := [], nextId := 1 }

/-- Fixture token issued to the non-admin guard user at time 0. -/
def tokC7 : Token := generate_token "s" 0 userC7

/-- Fixture handler standing in for a guarded endpoint. -/
def handlerC7 : UserRec → Response × Store := fun _ => (mkErr 418 "unused", stC7)

/-- Fixture user for the completed_at claims. -/
def userC8 : UserRec := userFx 0 "fay" "fay@ex.com" "pw" "user" true

/-- Fixture pending task with completed_at unset. -/
def taskC8 : TaskRec :=
  { id := 1, title := "todo", description := "d", user := 0
    status := "pending", priority := "medium", due_date := none
    completed_at := none, created_at := 0, updated_at := 0 }

/-- Fixture store for the completed_at claims: one active user owning one
pending task with completed_at unset. -/
def stC8 : Store := { users := [userC8], tasks := [taskC8], nextId := 2 }

/-- Fixture update request that only sets the status to completed. -/
def reqC8 : UpdateTaskReq :=
  { title := none, description := none, status := some "completed"
    priority := none, due_date := none }

/-- Fixture user for the pagination witness. -/
def userC9 : UserRec := userFx 0 "gil" "gil@ex.com" "pw" "user" true

/-- Fixture store for the pagination witness: one active user. -/
def stC9 : Store := { users := [userC9], tasks := [], nextId := 1 }

/-- Pure in the Except monad is the ok constructor. -/
theorem except_pure_eq {α ε : Type} (a : α) : (pure a : Except ε α) = Except.ok a := rfl

/-- Bind on a successful Except computation steps to the continuation. -/
theorem except_bind_ok {α β ε : Type} (a : α) (f : α → Except ε β) :
    Bind.bind (Except.ok a) f = f a := rfl

/-- Bind on a failed Except computation short-circuits. -/
theorem except_bind_error {α β ε : Type} (e : ε) (f : α → Except ε β) :
    Bind.bind (Except.error e) f = Except.error e := rfl

/-- C10: logout performs no server-side state change: it only instructs the
client to clear the auth_token cookie (value empty, max_age 0), and
verify_token gives the same result on every token, at every time and under
every secret, before and after logout — a previously issued, not-yet-expired
token of an active user remains fully usable until its expiry. -/
theorem logout_pure_client_side (st : Store) :
    (logout st).2 = st ∧
    (logout st).1.status = 200 ∧
    (logout st).1.setCookies = [{ name := "auth_token", value := .str "", maxAge := 0 }] ∧
    ∀ secret now t, verify_token secret (logout st).2 now t = verify_token secret st now t :=
  ⟨rfl, rfl, rfl, fun _ _ _ => rfl⟩

/-- Counterexample to C3: with the same store holding one deactivated user
whose password is pw1234, a wrong-password login yields the body
"Invalid credentials" while a correct-password login on the deactivated
account yields the distinct body "Account is deactivated" — the three
failure cases do not share one error body, leaking the activation state. -/
theorem login_deactivated_distinct_body_cex :
    (login "s" stC3 0 { login := some "alice", password := some "pw1234" }).1 =
      mkErr 401 "Account is deactivated" ∧
    (login "s" stC3 0 { login := some "alice", password := some "wrong" }).1 =
      mkErr 401 "Invalid credentials" ∧
    mkErr 401 "Account is deactivated" ≠ mkErr 401 "Invalid credentials" := by
  refine ⟨by decide, by decide, by decide⟩

/-- C3 amended: every failed login returns status 401; an unknown login
identifier and a wrong password for an existing user return the identical
generic "Invalid credentials" response, but an existing, correct-password,
deactivated account returns the distinct "Account is deactivated" body. -/
theorem login_failure_responses (secret : String) (st : Store) (now : Nat) (req : LoginReq)
    (hl : truthy req.login = true) (hp : truthy req.password = true) :
    (findLoginUser st (py_strip (req.login.getD "")) = none →
      login secret st now req = (mkErr 401 "Invalid credentials", st)) ∧
    (∀ u, findLoginUser st (py_strip (req.login.getD "")) = some u →
      check_password u (req.password.getD "") = false →
      login secret st now req = (mkErr 401 "Invalid credentials", st)) ∧
    (∀ u, findLoginUser st (py_strip (req.login.getD "")) = some u →
      check_password u (req.password.getD "") = true →
      u.is_active = false →
      login secret st now req = (mkErr 401 "Account is deactivated", st)) := by
  refine ⟨fun h => ?_, fun u h hc => ?_, fun u h hc ha => ?_⟩
  · simp [login, hl, hp, h]
  · simp [login, hl, hp, h, hc]
  · simp [login, hl, hp, h, hc, ha]

/-- Witness for login_failure_responses: the three hypotheses discharged on
concrete stores and requests. -/
theorem login_failure_responses_witness :
    login "s" stC3 0 { login := some "nobody", password := some "x" } =
      (mkErr 401 "Invalid credentials", stC3) ∧
    login "s" stC3 0 { login := some "alice", password := some "wrong" } =
      (mkErr 401 "Invalid credentials", stC3) ∧
    login "s" stC3 0 { login := some "alice", password := some "pw1234" } =
      (mkErr 401 "Account is deactivated", stC3) := by
  refine ⟨?_, ?_, ?_⟩
  · exact (login_failure_responses "s" stC3 0 _ (by decide) (by decide)).1 (by decide)
  · exact (login_failure_responses "s" stC3 0 _ (by decide) (by decide)).2.1 userC3 (by decide) (by decide)
  · exact (login_failure_responses "s" stC3 0 _ (by decide) (by decide)).2.2 userC3 (by decide) (by decide) (by decide)

/-- Counterexample to C1: a registration whose save raises a store
validation error returns a body whose details field carries the store error
text verbatim — the error response body is not free of exception text. -/
theorem register_leaks_exception_text_cex :
    (register "s" emptyStore 0 reqBadRole).1 =
      { status := 500
        body := [ ("error", .leaf (.str "Registration failed"))
                , ("details", .leaf (.str "ValidationError (User) (Value must be one of the permitted values: role)")) ]
        setCookies := [] } := by
  decide

/-- C1 amended: when an unexpected exception e occurs inside register or
create_task, the handler returns a 500 response whose error field is the
fixed generic per-handler message but whose details field is str(e)
verbatim — the store is left unchanged, yet the exception text is leaked to
the client. -/
theorem handlers_500_generic_error_with_leaked_details (secret : String) (st : Store)
    (now : Nat) (req : RegisterReq) (user : Option UserRec) (creq : CreateTaskReq)
    (e e' : PyExc) :
    (registerTry secret st now req = .error e →
      register secret st now req =
        ({ status := 500
           body := [ ("error", .leaf (.str "Registration failed"))
                   , ("details", .leaf (.str e.msg)) ]
           setCookies := [] }, st)) ∧
    (createTaskTry st now user creq = .error e' →
      create_task st now user creq =
        ({ status := 500
           body := [ ("error", .leaf (.str "Task creation failed"))
                   , ("details", .leaf (.str e'.msg)) ]
           setCookies := [] }, st)) := by
  constructor
  · intro h; simp [register, h]
  · intro h; simp [create_task, h]

/-- Witness for handlers_500_generic_error_with_leaked_details: both
hypotheses discharged on concrete failing runs. -/
theorem handlers_500_generic_witness :
    register "s" emptyStore 0 reqBadRole =
      ({ status := 500
         body := [ ("error", .leaf (.str "Registration failed"))
                 , ("details", .leaf (.str (PyExc.validationError "ValidationError (User) (Value must be one of the permitted values: role)").msg)) ]
         setCookies := [] }, emptyStore) ∧
    create_task stC2 0 (some userC2) reqC2 =
      ({ status := 500
         body := [ ("error", .leaf (.str "Task creation failed"))
                 , ("details", .leaf (.str (PyExc.validationError "ValidationError (Task) (Value must be one of the permitted values: status)").msg)) ]
         setCookies := [] }, stC2) := by
  constructor
  · exact (handlers_500_generic_error_with_leaked_details "s" emptyStore 0 reqBadRole none
      ⟨none, none, none, none, none⟩ _ (.validationError "")).1 (by rfl)
  · exact (handlers_500_generic_error_with_leaked_details "s" stC2 0 reqBadRole (some userC2)
      reqC2 (.validationError "") _).2 (by rfl)

/-- Counterexample to C7: a request to the AdminRequired-guarded endpoint
with a missing token — certainly not an admin caller — is answered with 401,
not with the 403 the claim asserts for every non-admin caller regardless of
token validity. -/
theorem admin_guard_missing_token_cex :
    admin_required "s" stC7 0 none handlerC7 =
      (mkErr 401 "Authentication token required", stC7) ∧
    (admin_required "s" stC7 0 none handlerC7).1.status ≠ 403 := by
  refine ⟨by decide, by decide⟩

/-- C7 amended: under Required, a missing token fails 401 token-required and
a present-but-unresolvable token fails 401 invalid-or-expired, otherwise the
handler runs on the resolved identity; under AdminRequired the same two 401
failures apply, a token resolving to a non-admin fails 403, and only a token
resolving to an admin reaches the handler — so a non-admin caller receives
403 exactly when their token resolves, and 401 otherwise. -/
theorem guard_semantics (secret : String) (st : Store) (now : Nat)
    (f : UserRec → Response × Store) :
    (auth_required secret st now none f = (mkErr 401 "Authentication token required", st)) ∧
    (∀ tok, verify_token secret st now tok = none →
      auth_required secret st now (some tok) f = (mkErr 401 "Invalid or expired token", st)) ∧
    (∀ tok u, verify_token secret st now tok = some u →
      auth_required secret st now (some tok) f = f u) ∧
    (admin_required secret st now none f = (mkErr 401 "Authentication token required", st)) ∧
    (∀ tok, verify_token secret st now tok = none →
      admin_required secret st now (some tok) f = (mkErr 401 "Invalid or expired token", st)) ∧
    (∀ tok u, verify_token secret st now tok = some u → u.role ≠ "admin" →
      admin_required secret st now (some tok) f = (mkErr 403 "Admin access required", st)) ∧
    (∀ tok u, verify_token secret st now tok = some u → u.role = "admin" →
      admin_required secret st now (some tok) f = f u) := by
  refine ⟨rfl, fun tok h => ?_, fun tok u h => ?_, rfl, fun tok h => ?_,
    fun tok u h hr => ?_, fun tok u h hr => ?_⟩
  · simp [auth_required, h]
  · simp [auth_required, h]
  · simp [admin_required, h]
  · simp [admin_required, h, hr]
  · simp [admin_required, h, hr]

/-- Witness for guard_semantics: hypotheses discharged on a concrete store,
token and handler, covering the 401, 403 and pass-through outcomes. -/
theorem guard_semantics_witness :
    auth_required "s" stC7 0 none handlerC7 =
      (mkErr 401 "Authentication token required", stC7) ∧
    admin_required "s" stC7 0 (some tokC7) handlerC7 =
      (mkErr 403 "Admin access required", stC7) ∧
    auth_required "s" stC7 0 (some tokC7) handlerC7 = handlerC7 userC7 := by
  refine ⟨(guard_semantics "s" stC7 0 handlerC7).1, ?_, ?_⟩
  · exact (guard_semantics "s" stC7 0 handlerC7).2.2.2.2.2.1 tokC7 userC7 (by decide) (by decide)
  · exact (guard_semantics "s" stC7 0 handlerC7).2.2.1 tokC7 userC7 (by decide)

/-- C9: a task-list request with limit=0 reaches the pages computation
(total + limit - 1) // limit, whose division by zero raises, is caught by
the generic exception branch, and surfaces as the 500 failed-to-get-tasks
response (with the ZeroDivisionError text in the details field) rather than
as a 400 validation error; nothing guards the division against limit=0. -/
theorem get_tasks_limit_zero_500 (st : Store) (u : UserRec) (args : GetTasksArgs)
    (hl : args.limit = some "0") (hp : ∃ p, pyInt (args.page.getD "1") = .ok p) :
    get_tasks st (some u) args =
      ({ status := 500
         body := [ ("error", .leaf (.str "Failed to get tasks"))
                 , ("details", .leaf (.str "integer division or modulo by zero")) ]
         setCookies := [] }, st) ∧
    (get_tasks st (some u) args).1.status ≠ 400 := by
  obtain ⟨p, hp⟩ := hp
  have h : getTasksTry st (some u) args = .error .zeroDivisionError := by
    simp only [getTasksTry, hl]
    rw [hp]
    rfl
  refine ⟨?_, ?_⟩ <;> simp [get_tasks, h, PyExc.msg]

/-- Witness for get_tasks_limit_zero_500: the hypotheses discharged on a
concrete store and a concrete limit=0 request. -/
theorem get_tasks_limit_zero_witness :
    get_tasks stC9 (some userC9) { status := none, priority := none, page := none, limit := some "0" } =
      ({ status := 500
         body := [ ("error", .leaf (.str "Failed to get tasks"))
                 , ("details", .leaf (.str "integer division or modulo by zero")) ]
         setCookies := [] }, stC9) :=
  (get_tasks_limit_zero_500 stC9 userC9 _ rfl ⟨1, by rfl⟩).1

/-- C6: the get, update and delete task operations are owner-scoped: when no
task with the requested id is owned by the caller — whether the task does
not exist at all or is owned by another user — all three return the same
404 task-not-found response with the store unchanged, a response that is
not Forbidden and carries none of the task's data; and get returns the task
object exactly when the owner-scoped lookup finds it. -/
theorem scoped_task_ops_not_found (st : Store) (now : Nat) (u : UserRec) (tid : Nat)
    (req : UpdateTaskReq) :
    ((∀ t ∈ st.tasks, ¬(t.id = tid ∧ t.user = u.id)) →
      get_task st (some u) tid = (mkErr 404 "Task not found", st) ∧
      update_task st now (some u) tid req = (mkErr 404 "Task not found", st) ∧
      delete_task st (some u) tid = (mkErr 404 "Task not found", st) ∧
      (mkErr 404 "Task not found").status = 404 ∧
      (mkErr 404 "Task not found").status ≠ 403) ∧
    (∀ t, findOwnedTask st u.id tid = some t →
      get_task st (some u) tid =
        ({ status := 200, body := [("task", .obj (taskJsonGet t))], setCookies := [] }, st)) := by
  constructor
  · intro h
    have hf : findOwnedTask st u.id tid = none := by
      rw [findOwnedTask, List.find?_eq_none]
      intro x hx
      have := h x hx
      simp only [Bool.and_eq_true, beq_iff_eq]
      tauto
    refine ⟨?_, ?_, ?_, rfl, by decide⟩
    · simp [get_task, hf]
    · simp [update_task, updateTaskTry, hf, pure, Except.pure]
    · simp [delete_task, hf]
  · intro t ht
    simp [get_task, ht]

/-- Witness for scoped_task_ops_not_found: user A requesting the task owned
by user B obtains the same 404 as for a non-existent task; user B obtains
the task. -/
theorem scoped_task_ops_witness :
    get_task stC6 (some annC6) 2 = (mkErr 404 "Task not found", stC6) ∧
    update_task stC6 5 (some annC6) 2 ⟨some "x", none, none, none, none⟩ =
      (mkErr 404 "Task not found", stC6) ∧
    delete_task stC6 (some annC6) 2 = (mkErr 404 "Task not found", stC6) ∧
    get_task stC6 (some benC6) 2 =
      ({ status := 200, body := [("task", .obj (taskJsonGet taskC6))], setCookies := [] }, stC6) := by
  have h := (scoped_task_ops_not_found stC6 5 annC6 2 ⟨some "x", none, none, none, none⟩).1
    (by decide)
  exact ⟨h.1, h.2.1, h.2.2.1,
    (scoped_task_ops_not_found stC6 5 benC6 2 ⟨some "x", none, none, none, none⟩).2 taskC6
      (by decide)⟩

/-- Lookup of a user id in a store after deactivating that id: the result is
the original lookup with its active flag forced off. -/
theorem find_after_deactivate (l : List UserRec) (uid : Nat) :
    (l.map (fun u => if u.id == uid then { u with is_active := false } else u)).find?
        (fun v => v.id == uid) =
      (l.find? (fun v => v.id == uid)).map (fun v => { v with is_active := false }) := by
  induction l with
  | nil => rfl
  | cons x xs ih =>
    rw [List.map_cons]
    by_cases hB : x.id = uid
    · have h1 : ((if x.id == uid then { x with is_active := false } else x) : UserRec) =
          { x with is_active := false } := by simp [hB]
      rw [h1, List.find?_cons_of_pos _ (by simp [hB]),
        List.find?_cons_of_pos _ (by simp [hB])]
      rfl
    · have h1 : ((if x.id == uid then { x with is_active := false } else x) : UserRec) = x := by
        simp [hB]
      rw [h1, List.find?_cons_of_neg _ (by simp [hB]),
        List.find?_cons_of_neg _ (by simp [hB])]
      exact ih

/-- C5: verify_token returns a user exactly when the token's signature is
valid under the server secret, the token is unexpired at verification time,
and the embedded subject id resolves to an existing user whose active flag
is true at resolution time; in every other case it returns none — so after
deactivating a user, every token whose subject is that user resolves to
none, whatever its expiry. -/
theorem verify_token_characterization (secret : String) (st : Store) (now : Nat)
    (t : Token) (u : UserRec) :
    (verify_token secret st now t = some u ↔
      (t.sig = jwtSignature secret t.payload ∧ now < t.payload.exp ∧
       st.users.find? (fun v => v.id == t.payload.user_id) = some u ∧
       u.is_active = true)) ∧
    (∀ uid, t.payload.user_id = uid →
      verify_token secret (deactivate st uid) now t = none) := by
  constructor
  · by_cases hs : t.sig = jwtSignature secret t.payload
    · by_cases he : t.payload.exp ≤ now
      · have hlt : ¬ now < t.payload.exp := by omega
        simp [verify_token, jwt_decode, hs, he, hlt]
      · have hlt : now < t.payload.exp := by omega
        cases hf : st.users.find? (fun v => v.id == t.payload.user_id) with
        | none => simp [verify_token, jwt_decode, hs, he, hf]
        | some v =>
          by_cases ha : v.is_active
          · constructor
            · intro hver
              have hv : v = u := by
                simpa [verify_token, jwt_decode, hs, he, hf, ha] using hver
              exact ⟨hs, hlt, congrArg some hv, hv ▸ ha⟩
            · rintro ⟨-, -, h3, h4⟩
              have hv : v = u := Option.some.inj h3
              simp [verify_token, jwt_decode, hs, he, hf, hv, h4]
          · constructor
            · intro hver
              exact absurd hver (by simp [verify_token, jwt_decode, hs, he, hf, ha])
            · rintro ⟨-, -, h3, h4⟩
              have hv : v = u := Option.some.inj h3
              rw [hv] at ha
              exact absurd h4 ha
    · simp [verify_token, jwt_decode, hs]
  · intro uid huid
    cases hd : jwt_decode secret now t with
    | error e => simp [verify_token, hd]
    | ok payload =>
      have hpay : payload = t.payload := by
        unfold jwt_decode at hd
        split at hd
        · exact absurd hd (by simp)
        · split at hd
          · exact absurd hd (by simp)
          · exact (Except.ok.inj hd).symm
      subst hpay
      simp only [verify_token, hd, deactivate]
      rw [huid, find_after_deactivate]
      cases st.users.find? (fun v => v.id == uid) with
      | none => rfl
      | some v => rfl

/-- Witness for verify_token_characterization: a concrete token of an active
user resolves to that user, and the same token resolves to none right after
the user is deactivated. -/
theorem verify_token_characterization_witness :
    verify_token "s" stC5 10 tokC5 = some userC5 ∧
    verify_token "s" (deactivate stC5 3) 10 tokC5 = none := by
  have h := verify_token_characterization "s" stC5 10 tokC5 userC5
  exact ⟨h.1.mpr (by refine ⟨rfl, by decide, by decide, by decide⟩), h.2 3 rfl⟩

/-- Counterexample to C4: with a stored user whose normalized email is
alice@example.com, a second registration with email Alice@Example.com (same
email up to casing) is not answered with the duplicate-email error: the raw
pre-check misses, the save is rejected by the store's unique constraint, and
the client receives the generic 500 registration-failed response instead.
No user is created. -/
theorem register_case_variant_email_cex :
    register "s" stC4 0 reqC4 =
      ({ status := 500
         body := [ ("error", .leaf (.str "Registration failed"))
                 , ("details", .leaf (.str "Tried to save duplicate unique keys (index: email)")) ]
         setCookies := [] }, stC4) ∧
    (register "s" stC4 0 reqC4).1 ≠ mkErr 400 "Email already registered" := by
  refine ⟨by decide, by decide⟩

/-- C4 amended: a second registration whose email matches a stored email
after normalization creates no user, but the error it fails with depends on
casing: the duplicate pre-check compares the raw request email, so an exact
raw match yields the 400 duplicate-email error, while a match only after
lowercasing and trimming slips past the pre-check and is rejected by the
store's unique-email constraint at save time, surfacing as the generic 500
registration-failed response. -/
theorem register_duplicate_email_modes (secret : String) (st : Store) (now : Nat)
    (req : RegisterReq)
    (h1 : truthy req.username = true) (h2 : truthy req.email = true)
    (h3 : truthy req.password = true) (h4 : truthy req.name = true) :
    (st.users.any (fun v => v.email == req.email.getD "") = true →
      register secret st now req = (mkErr 400 "Email already registered", st)) ∧
    (st.users.any (fun v => v.email == req.email.getD "") = false →
     st.users.any (fun v => v.username == req.username.getD "") = false →
     roleChoices.contains (req.role.getD "user") = true →
     st.users.any (fun v => v.email == py_strip (py_lower (req.email.getD "")) &&
        v.id != st.nextId) = true →
      register secret st now req =
        ({ status := 500
           body := [ ("error", .leaf (.str "Registration failed"))
                   , ("details", .leaf (.str "Tried to save duplicate unique keys (index: email)")) ]
           setCookies := [] }, st)) := by
  constructor
  · intro hm
    simp [register, registerTry, h1, h2, h3, h4, hm, pure, Except.pure, except_bind_ok, except_bind_error]
  · intro hm1 hm2 hrole hdup
    have hrole' : req.role.getD "user" ∈ roleChoices := by simpa using hrole
    simp [register, registerTry, User_save, h1, h2, h3, h4, hm1, hm2, hrole', hdup,
      PyExc.msg, Except.map, pure, Except.pure, except_bind_ok, except_bind_error]

/-- Witness for register_duplicate_email_modes: the exact-raw-match branch
and the casing-variant branch both discharged on the concrete store. -/
theorem register_duplicate_email_modes_witness :
    register "s" stC4 0
        { username := some "al2", email := some "alice@example.com"
          password := some "x", name := some "A", role := none } =
      (mkErr 400 "Email already registered", stC4) ∧
    register "s" stC4 0 reqC4 =
      ({ status := 500
         body := [ ("error", .leaf (.str "Registration failed"))
                 , ("details", .leaf (.str "Tried to save duplicate unique keys (index: email)")) ]
         setCookies := [] }, stC4) := by
  constructor
  · exact (register_duplicate_email_modes "s" stC4 0 _
      (by decide) (by decide) (by decide) (by decide)).1 (by decide)
  · exact (register_duplicate_email_modes "s" stC4 0 reqC4
      (by decide) (by decide) (by decide) (by decide)).2
      (by decide) (by decide) (by decide) (by decide)

/-- Counterexample to C8: a task created directly with status completed is
stored with status completed and completed_at unset — completed_at is not
set the first time the status becomes completed when that happens at
creation. -/
theorem create_completed_unset_completed_at_cex :
    (create_task stC8 5 (some userC8)
        { title := some "t", description := some "d", status := some "completed"
          priority := none, due_date := none }).1.status = 201 ∧
    ((create_task stC8 5 (some userC8)
        { title := some "t", description := some "d", status := some "completed"
          priority := none, due_date := none }).2.tasks.map
      (fun t => (t.status, t.completed_at))) = [("pending", none), ("completed", none)] := by
  refine ⟨by decide, by decide⟩

/-- C8 amended: for status updates through update_task, an update setting
status to completed sets completed_at to the update instant exactly when it
was previously unset; a second update to completed leaves the stored
completed_at unchanged; and no status update ever clears or changes a set
completed_at.  (Creating a task directly in status completed, however,
leaves completed_at unset.) -/
theorem completed_at_update_semantics (st : Store) (now : Nat) (u : UserRec) (tid : Nat)
    (t0 : TaskRec) (hf : findOwnedTask st u.id tid = some t0)
    (hpr : priorityChoices.contains t0.priority = true) :
    (t0.completed_at = none →
      update_task st now (some u) tid ⟨none, none, some "completed", none, none⟩ =
        ({ status := 200
           body := [ ("message", .leaf (.str "Task updated successfully"))
                   , ("task", .obj (taskJsonUpdate
                       { t0 with status := "completed", completed_at := some now, updated_at := now })) ]
           setCookies := [] },
         { st with tasks := st.tasks.map (fun x =>
             if x.id == t0.id
             then { t0 with status := "completed", completed_at := some now, updated_at := now }
             else x) })) ∧
    (∀ c, t0.completed_at = some c →
      update_task st now (some u) tid ⟨none, none, some "completed", none, none⟩ =
        ({ status := 200
           body := [ ("message", .leaf (.str "Task updated successfully"))
                   , ("task", .obj (taskJsonUpdate
                       { t0 with status := "completed", updated_at := now })) ]
           setCookies := [] },
         { st with tasks := st.tasks.map (fun x =>
             if x.id == t0.id
             then { t0 with status := "completed", updated_at := now }
             else x) })) ∧
    (∀ s c, t0.completed_at = some c → statusChoices.contains t0.status = true →
      (update_task st now (some u) tid ⟨none, none, s, none, none⟩).2 = st ∨
      ∃ t1, (update_task st now (some u) tid ⟨none, none, s, none, none⟩).2 =
          { st with tasks := st.tasks.map (fun x => if x.id == t0.id then t1 else x) } ∧
        t1.completed_at = some c) := by
  have hmem : t0 ∈ st.tasks := List.mem_of_find?_eq_some hf
  have hany : st.tasks.any (fun x => x.id == t0.id) = true :=
    List.any_eq_true.mpr ⟨t0, hmem, by simp⟩
  have hpr' : t0.priority ∈ priorityChoices := by simpa using hpr
  have hsc : "completed" ∈ statusChoices := by decide
  refine ⟨fun hc => ?_, fun c hc => ?_, fun s c hc hst => ?_⟩
  · simp [update_task, updateTaskTry, Task_save, hf, hc, hpr', hany, hsc,
      Except.map, pure, Except.pure, except_bind_ok, except_bind_error]
  · simp [update_task, updateTaskTry, Task_save, hf, hc, hpr', hany, hsc,
      Except.map, pure, Except.pure, except_bind_ok, except_bind_error]
  · have hst' : t0.status ∈ statusChoices := by simpa using hst
    match s with
    | none =>
      right
      refine ⟨{ t0 with updated_at := now }, ?_, by simp [hc]⟩
      simp [update_task, updateTaskTry, Task_save, hf, hpr', hany, hst',
        Except.map, pure, Except.pure, except_bind_ok, except_bind_error]
    | some sv =>
      by_cases hcon : sv ∈ statusChoices
      · right
        refine ⟨{ t0 with status := sv, updated_at := now }, ?_, by simp [hc]⟩
        simp [update_task, updateTaskTry, Task_save, hf, hc, hpr', hany, hcon,
          Except.map, pure, Except.pure, except_bind_ok, except_bind_error]
      · left
        simp [update_task, updateTaskTry, hf, hcon, Except.map, pure, Except.pure, except_bind_ok, except_bind_error]

/-- Witness for completed_at_update_semantics: on the concrete store, the
first completed update stamps completed_at with the update instant, and a
second completed update at a later instant leaves it unchanged. -/
theorem completed_at_update_semantics_witness :
    ((update_task stC8 7 (some userC8) 1
        ⟨none, none, some "completed", none, none⟩).2.tasks.map
      (fun t => (t.status, t.completed_at))) = [("completed", some 7)] ∧
    (((update_task ((update_task stC8 7 (some userC8) 1
          ⟨none, none, some "completed", none, none⟩).2) 9 (some userC8) 1
        ⟨none, none, some "completed", none, none⟩).2.tasks.map
      (fun t => (t.status, t.completed_at)))) = [("completed", some 7)] := by
  have h1 := (completed_at_update_semantics stC8 7 userC8 1 taskC8
    (by decide) (by decide)).1 rfl
  have h2 := (completed_at_update_semantics
    ((update_task stC8 7 (some userC8) 1 ⟨none, none, some "completed", none, none⟩).2) 9
    userC8 1 { taskC8 with status := "completed", completed_at := some 7, updated_at := 7 }
    (by decide) (by decide)).2.1 7 rfl
  constructor
  · rw [h1]; decide
  · rw [h2]; decide

/-- A successful Except bind factors through a successful first component. -/
theorem except_bind_eq_ok {α β ε : Type} {x : Except ε α} {f : α → Except ε β} {b : β}
    (h : Bind.bind x f = .ok b) : ∃ a, x = .ok a ∧ f a = .ok b := by
  cases x with
  | error e => rw [except_bind_error] at h; exact absurd h (by simp)
  | ok a => exact ⟨a, rfl, by rwa [except_bind_ok] at h⟩

/-- A successful Except map factors through a successful argument. -/
theorem except_map_eq_ok {α β ε : Type} {f : α → β} {x : Except ε α} {b : β}
    (h : f <$> x = .ok b) : ∃ a, x = .ok a ∧ f a = b := by
  cases x with
  | error e => exact absurd h (by simp)
  | ok a => exact ⟨a, rfl, by simpa using h⟩

/-- Elementwise reading of storeValid. -/
theorem storeValid_iff (st : Store) :
    storeValid st = true ↔
      (∀ u ∈ st.users, userRoleValid u = true) ∧ (∀ t ∈ st.tasks, taskEnumsValid t = true) := by
  simp [storeValid, List.all_eq_true]

/-- A successful User.save preserves the enum invariant: the saved document
passed the role-choices validation and every other document is unchanged. -/
theorem User_save_valid {st st2 : Store} {u : UserRec}
    (h : User_save st u = .ok st2) (hv : storeValid st = true) : storeValid st2 = true := by
  unfold User_save at h
  split at h
  · exact absurd h (by simp)
  · split at h
    · exact absurd h (by simp)
    · split at h
      · exact absurd h (by simp)
      · have hrole : userRoleValid u = true := by
          rename_i hr _ _
          simpa [userRoleValid] using hr
        obtain ⟨hu, ht⟩ := (storeValid_iff st).mp hv
        split at h <;>
          [skip; skip] <;> {
          have h2 := Except.ok.inj h
          subst h2
          refine (storeValid_iff _).mpr ⟨?_, ht⟩
          intro v hvmem
          first
          | (obtain ⟨w, hw, hweq⟩ := List.mem_map.mp hvmem
             by_cases hid : w.id == u.id
             · rw [← hweq]; simp only [hid, if_true]; exact hrole
             · rw [← hweq]; simp only [hid]; simp only [Bool.false_eq_true, if_false]
               exact hu w hw)
          | (rcases List.mem_append.mp hvmem with hin | hin
             · exact hu v hin
             · rw [List.mem_singleton.mp hin]; exact hrole) }

/-- A successful Task.save preserves the enum invariant: the saved document
passed the status/priority-choices validation and every other document is
unchanged. -/
theorem Task_save_valid {st st2 : Store} {t : TaskRec}
    (h : Task_save st t = .ok st2) (hv : storeValid st = true) : storeValid st2 = true := by
  unfold Task_save at h
  split at h
  · exact absurd h (by simp)
  · split at h
    · exact absurd h (by simp)
    · have henums : taskEnumsValid t = true := by
        rename_i hs hp
        simp only [Bool.not_eq_true', Bool.not_eq_false] at hs hp
        simp only [taskEnumsValid, Bool.and_eq_true]
        exact ⟨hs, hp⟩
      obtain ⟨hu, ht⟩ := (storeValid_iff st).mp hv
      split at h <;>
        [skip; skip] <;> {
        have h2 := Except.ok.inj h
        subst h2
        refine (storeValid_iff _).mpr ⟨hu, ?_⟩
        intro v hvmem
        first
        | (obtain ⟨w, hw, hweq⟩ := List.mem_map.mp hvmem
           by_cases hid : w.id == t.id
           · rw [← hweq]; simp only [hid, if_true]; exact henums
           · rw [← hweq]; simp only [hid]; simp only [Bool.false_eq_true, if_false]
             exact ht w hw)
        | (rcases List.mem_append.mp hvmem with hin | hin
           · exact ht v hin
           · rw [List.mem_singleton.mp hin]; exact henums) }

/-- Every successful run of register's try-block either left the store
unchanged (an early validation return) or produced it by one User.save. -/
theorem registerTry_store {secret : String} {st : Store} {now : Nat} {req : RegisterReq}
    {r : Response} {st2 : Store}
    (h : registerTry secret st now req = .ok (r, st2)) :
    st2 = st ∨ ∃ u, User_save st u = .ok st2 := by
  unfold registerTry at h
  repeat'
    first
    | split at h
    | simp only [except_pure_eq, except_bind_ok] at h
  all_goals
    first
    | (simp only [pure, Except.pure, Except.ok.injEq, Prod.mk.injEq] at h
       exact Or.inl h.2.symm)
    | (obtain ⟨s2, hU, hk⟩ := except_bind_eq_ok h
       simp only [pure, Except.pure, Except.ok.injEq, Prod.mk.injEq] at hk
       exact Or.inr ⟨_, hk.2 ▸ hU⟩)

/-- Every successful run of create_task's try-block either left the store
unchanged or produced it by one Task.save. -/
theorem createTaskTry_store {st : Store} {now : Nat} {user : Option UserRec}
    {req : CreateTaskReq} {r : Response} {st2 : Store}
    (h : createTaskTry st now user req = .ok (r, st2)) :
    st2 = st ∨ ∃ t, Task_save st t = .ok st2 := by
  unfold createTaskTry at h
  repeat'
    first
    | split at h
    | simp only [except_pure_eq, except_bind_ok] at h
  all_goals
    first
    | (simp only [pure, Except.pure, Except.ok.injEq, Prod.mk.injEq] at h
       exact Or.inl h.2.symm)
    | (obtain ⟨s2, hU, hk⟩ := except_bind_eq_ok h
       simp only [pure, Except.pure, Except.ok.injEq, Prod.mk.injEq] at hk
       exact Or.inr ⟨_, hk.2 ▸ hU⟩)

set_option maxHeartbeats 1000000 in
/-- Every successful run of update_task's try-block either left the store
unchanged or produced it by one Task.save. -/
theorem updateTaskTry_store {st : Store} {now : Nat} {user : Option UserRec}
    {task_id : Nat} {req : UpdateTaskReq} {r : Response} {st2 : Store}
    (h : updateTaskTry st now user task_id req = .ok (r, st2)) :
    st2 = st ∨ ∃ t, Task_save st t = .ok st2 := by
  unfold updateTaskTry at h
  repeat'
    first
    | split at h
    | simp only [except_pure_eq, except_bind_ok] at h
  all_goals
    first
    | (simp only [pure, Except.pure, Except.ok.injEq, Prod.mk.injEq] at h
       exact Or.inl h.2.symm)
    | (obtain ⟨s2, hU, hk⟩ := except_bind_eq_ok h
       simp only [pure, Except.pure, Except.ok.injEq, Prod.mk.injEq] at hk
       exact Or.inr ⟨_, hk.2 ▸ hU⟩)

/-- get_tasks never writes the store. -/
theorem get_tasks_store (st : Store) (user : Option UserRec) (args : GetTasksArgs) :
    (get_tasks st user args).2 = st := by
  unfold get_tasks
  cases h : getTasksTry st user args with
  | error e => rfl
  | ok p =>
    obtain ⟨r, st2⟩ := p
    suffices hsuf : st2 = st by simp [hsuf]
    unfold getTasksTry at h
    repeat'
      first
      | split at h
      | simp only [except_pure_eq, except_bind_ok] at h
    all_goals
      first
      | (simp only [pure, Except.pure, Except.ok.injEq, Prod.mk.injEq] at h
         exact h.2.symm)
      | (obtain ⟨a1, h1, h⟩ := except_bind_eq_ok h
         obtain ⟨a2, h2, h⟩ := except_bind_eq_ok h
         obtain ⟨a3, h3, h⟩ := except_map_eq_ok h
         exact (congrArg Prod.snd h).symm)

/-- register preserves the enum invariant on the store. -/
theorem register_valid {secret : String} {st : Store} {now : Nat} {req : RegisterReq}
    (hv : storeValid st = true) : storeValid (register secret st now req).2 = true := by
  unfold register
  cases h : registerTry secret st now req with
  | error e => exact hv
  | ok p =>
    obtain ⟨r, st2⟩ := p
    rcases registerTry_store h with heq | ⟨u, hU⟩
    · simpa [heq] using hv
    · simpa using User_save_valid hU hv

/-- create_task preserves the enum invariant on the store. -/
theorem create_task_valid {st : Store} {now : Nat} {user : Option UserRec}
    {req : CreateTaskReq} (hv : storeValid st = true) :
    storeValid (create_task st now user req).2 = true := by
  unfold create_task
  cases h : createTaskTry st now user req with
  | error e => exact hv
  | ok p =>
    obtain ⟨r, st2⟩ := p
    rcases createTaskTry_store h with heq | ⟨t, hT⟩
    · simpa [heq] using hv
    · simpa using Task_save_valid hT hv

/-- update_task preserves the enum invariant on the store. -/
theorem update_task_valid {st : Store} {now : Nat} {user : Option UserRec}
    {task_id : Nat} {req : UpdateTaskReq} (hv : storeValid st = true) :
    storeValid (update_task st now user task_id req).2 = true := by
  unfold update_task
  cases h : updateTaskTry st now user task_id req with
  | error e => exact hv
  | ok p =>
    obtain ⟨r, st2⟩ := p
    rcases updateTaskTry_store h with heq | ⟨t, hT⟩
    · simpa [heq] using hv
    · simpa using Task_save_valid hT hv

/-- delete_task preserves the enum invariant on the store. -/
theorem delete_task_valid {st : Store} {user : Option UserRec} {task_id : Nat}
    (hv : storeValid st = true) : storeValid (delete_task st user task_id).2 = true := by
  unfold delete_task
  obtain ⟨hu, ht⟩ := (storeValid_iff st).mp hv
  repeat' split
  · exact hv
  · exact hv
  · refine (storeValid_iff _).mpr ⟨hu, ?_⟩
    intro v hvmem
    exact ht v (List.mem_of_mem_filter hvmem)

/-- The guard wrappers preserve any store property that the wrapped handler
preserves. -/
theorem auth_required_valid {secret : String} {st : Store} {now : Nat}
    {ck : Option Token} {f : UserRec → Response × Store}
    (hv : storeValid st = true) (hf : ∀ u, storeValid (f u).2 = true) :
    storeValid (auth_required secret st now ck f).2 = true := by
  unfold auth_required
  repeat' split
  · exact hv
  · exact hv
  · exact hf _

/-- One request preserves the enum invariant on the store. -/
theorem applyOp_valid (secret : String) (st : Store) (op : Op)
    (hv : storeValid st = true) : storeValid (applyOp secret st op) = true := by
  cases op with
  | opRegister now req => exact register_valid hv
  | opLogin now req =>
    show storeValid (login secret st now req).2 = true
    unfold login
    dsimp only
    repeat' split
    all_goals exact hv
  | opLogout => exact hv
  | opCreateTask now ck req =>
    exact auth_required_valid hv (fun u => create_task_valid hv)
  | opGetTasks now ck args =>
    exact auth_required_valid hv (fun u => by rw [get_tasks_store]; exact hv)
  | opGetTask now ck tid =>
    refine auth_required_valid hv (fun u => ?_)
    show storeValid (get_task st (some u) tid).2 = true
    unfold get_task
    repeat' split
    all_goals exact hv
  | opUpdateTask now ck tid req =>
    exact auth_required_valid hv (fun u => update_task_valid hv)
  | opDeleteTask now ck tid =>
    exact auth_required_valid hv (fun u => delete_task_valid hv)

/-- Any sequence of requests preserves the enum invariant on the store. -/
theorem applySeq_valid (secret : String) (st : Store) (ops : List Op)
    (hv : storeValid st = true) : storeValid (applySeq secret st ops) = true := by
  induction ops generalizing st with
  | nil => exact hv
  | cons op ops ih => exact ih _ (applyOp_valid secret st op hv)

/-- Counterexample to C2: a task-creation request with the out-of-enum
status wip is not rejected at the boundary with a validation failure — the
controller performs no status check and the store's save-time rejection
surfaces as a generic 500, not a 400; the value is nevertheless not
stored. -/
theorem create_invalid_status_not_boundary_rejected_cex :
    (create_task stC2 0 (some userC2) reqC2).1.status = 500 ∧
    (create_task stC2 0 (some userC2) reqC2).1.status ≠ 400 ∧
    (create_task stC2 0 (some userC2) reqC2).2 = stC2 := by
  refine ⟨by decide, by decide, by decide⟩

/-- C2 amended: update_task rejects out-of-enum status and priority values
at the boundary with 400; register and create_task perform no boundary check
on role, status or priority and pass the raw value to the store, whose
choices validation (modelled from the spec) rejects it at save time,
surfacing as a generic 500 with the store error text — in every case the
invalid value is never stored, and every stored user keeps role in
{user, admin} and every stored task keeps status and priority within their
enums across any sequence of requests. -/
theorem enum_values_store_validation (secret : String) :
    (∀ st ops, storeValid st = true → storeValid (applySeq secret st ops) = true) ∧
    (∀ st now req, truthy req.username = true → truthy req.email = true →
      truthy req.password = true → truthy req.name = true →
      st.users.any (fun v => v.email == req.email.getD "") = false →
      st.users.any (fun v => v.username == req.username.getD "") = false →
      ¬ req.role.getD "user" ∈ roleChoices →
      register secret st now req =
        ({ status := 500
           body := [ ("error", .leaf (.str "Registration failed"))
                   , ("details", .leaf (.str "ValidationError (User) (Value must be one of the permitted values: role)")) ]
           setCookies := [] }, st)) ∧
    (∀ st now u req, truthy req.title = true → truthy req.description = true →
      ¬ (req.title.getD "").length > 200 → ¬ (req.description.getD "").length > 1000 →
      truthy req.due_date = false →
      ¬ req.status.getD "pending" ∈ statusChoices →
      create_task st now (some u) req =
        ({ status := 500
           body := [ ("error", .leaf (.str "Task creation failed"))
                   , ("details", .leaf (.str "ValidationError (Task) (Value must be one of the permitted values: status)")) ]
           setCookies := [] }, st)) ∧
    (∀ st now u tid t0 s, findOwnedTask st u.id tid = some t0 →
      ¬ s ∈ statusChoices →
      update_task st now (some u) tid ⟨none, none, some s, none, none⟩ =
        (mkErr 400 "Invalid status", st)) ∧
    (∀ st now u tid t0 p, findOwnedTask st u.id tid = some t0 →
      ¬ p ∈ priorityChoices →
      update_task st now (some u) tid ⟨none, none, none, some p, none⟩ =
        (mkErr 400 "Invalid priority", st)) := by
  refine ⟨fun st ops h => applySeq_valid secret st ops h, ?_, ?_, ?_, ?_⟩
  · intro st now req h1 h2 h3 h4 hm1 hm2 hrole
    simp [register, registerTry, User_save, h1, h2, h3, h4, hm1, hm2, hrole, PyExc.msg,
      except_pure_eq, except_bind_ok, except_bind_error, Except.map]
  · intro st now u req h1 h2 h3 h4 h5 h6
    simp [create_task, createTaskTry, Task_save, h1, h2, h3, h4, h5, h6, PyExc.msg,
      except_pure_eq, except_bind_ok, except_bind_error, Except.map]
  · intro st now u tid t0 s hf hbad
    simp [update_task, updateTaskTry, hf, hbad,
      except_pure_eq, except_bind_ok, except_bind_error]
  · intro st now u tid t0 p hf hbad
    simp [update_task, updateTaskTry, hf, hbad,
      except_pure_eq, except_bind_ok, except_bind_error]

/-- Witness for enum_values_store_validation: the invariant holds after a
concrete register-then-create sequence, and all three rejection modes
discharged on concrete inputs. -/
theorem enum_values_store_validation_witness :
    storeValid (applySeq "s" emptyStore opsC2) = true ∧
    register "s" emptyStore 0 reqBadRole =
      ({ status := 500
         body := [ ("error", .leaf (.str "Registration failed"))
                 , ("details", .leaf (.str "ValidationError (User) (Value must be one of the permitted values: role)")) ]
         setCookies := [] }, emptyStore) ∧
    create_task stC2 0 (some userC2) reqC2 =
      ({ status := 500
         body := [ ("error", .leaf (.str "Task creation failed"))
                 , ("details", .leaf (.str "ValidationError (Task) (Value must be one of the permitted values: status)")) ]
         setCookies := [] }, stC2) ∧
    update_task stC2t 3 (some userC2) 1 ⟨none, none, some "wip", none, none⟩ =
      (mkErr 400 "Invalid status", stC2t) ∧
    update_task stC2t 3 (some userC2) 1 ⟨none, none, none, some "extreme", none⟩ =
      (mkErr 400 "Invalid priority", stC2t) := by
  have h := enum_values_store_validation "s"
  refine ⟨h.1 emptyStore opsC2 (by decide), ?_, ?_, ?_, ?_⟩
  · exact h.2.1 emptyStore 0 reqBadRole (by decide) (by decide) (by decide) (by decide)
      (by decide) (by decide) (by decide)
  · exact h.2.2.1 stC2 0 userC2 reqC2 (by decide) (by decide) (by decide) (by decide)
      (by decide) (by decide)
  · exact h.2.2.2.1 stC2t 3 userC2 1 taskC2 "wip" (by decide) (by decide)
  · exact h.2.2.2.2 stC2t 3 userC2 1 taskC2 "extreme" (by decide) (by decide)

end FlaskApp
